import Mathlib

/-!
Verification of the faceoff Elo rating system.

This development shallowly embeds the rating-update engine
(`src/calculate_elo.py`), the K-factor optimizer's chronological split and
online validation loop (`src/elo_optimization/optimize_k.py`), and the
weighted group-matchup aggregator (`src/live_runs/matchup_elo.py`).

Python floats are modelled by real numbers, counters by naturals, and the
exact, division-only weight arithmetic by rationals.  JSON records become
structures; the mutable player dictionary becomes a function
`ℤ → Option Player` with functional update; code that can raise a
`KeyError` returns `Option`.
-/

namespace FaceoffElo

/-- A per-player rating record, as stored in the per-player JSON files and
in the in-memory `players` dictionaries: `player_id`, `elo`,
`faceoffs_taken`, the three zone counters and `time_on_ice_seconds`
(only the fields the core arithmetic reads; name/team metadata is inert). -/
structure Player where
  player_id : ℤ
  elo : ℝ
  faceoffs_taken : ℕ
  offensive_faceoffs : ℕ
  defensive_faceoffs : ℕ
  neutral_faceoffs : ℕ
  time_on_ice_seconds : ℚ

/-- The in-memory player dictionary keyed by player id. -/
def Players : Type := ℤ → Option Player

/-- One faceoff row, as read from a `*_faceoff_data.json` file: the
`details.winningPlayerId` / `details.losingPlayerId` fields (absent keys
become `none`) and the optional `details.zoneCode`. -/
structure Event where
  winnerId : Option ℤ
  loserId : Option ℤ
  zoneCode : Option String

/-- `K_FACTOR = 32` from `calculate_elo.py`. -/
noncomputable def K_FACTOR : ℝ := 32

/-- `STARTING_ELO = 1500` from `calculate_elo.py`. -/
noncomputable def STARTING_ELO : ℝ := 1500

/-- `calculate_expected_score`: `1 / (1 + 10 ** ((rating_b - rating_a) / 400))`. -/
noncomputable def calculate_expected_score (rating_a rating_b : ℝ) : ℝ :=
  1 / (1 + (10 : ℝ) ^ ((rating_b - rating_a) / 400))

/-- `update_elo`: `old_rating + k * (actual - expected)`. -/
noncomputable def update_elo (old_rating expected actual k : ℝ) : ℝ :=
  old_rating + k * (actual - expected)

/-- `log_loss_single` from the optimizer: clip the probability to
`[1e-15, 1 - 1e-15]`, then `-log p` (winner's perspective, `actual = 1`)
or `-log (1 - p)`. -/
noncomputable def log_loss_single (predicted_prob : ℝ) (actual : ℕ) : ℝ :=
  let eps : ℝ := 1 / 10 ^ (15 : ℕ)
  let p := max eps (min (1 - eps) predicted_prob)
  if actual = 1 then -Real.log p else -Real.log (1 - p)

/-- Dictionary update `players[id] = p`. -/
def insertP (ps : Players) (id : ℤ) (p : Player) : Players :=
  fun j => if j = id then some p else ps j

/-- Dictionary read `players[id]`; total by defaulting, used only where the
source guarantees presence. -/
def playerAt (ps : Players) (id : ℤ) : Player :=
  (ps id).getD
    { player_id := id, elo := 1500, faceoffs_taken := 0, offensive_faceoffs := 0,
      defensive_faceoffs := 0, neutral_faceoffs := 0, time_on_ice_seconds := 0 }

/-- The fresh record built by the optimizer's `get_or_create_player`. -/
noncomputable def defaultPlayer (id : ℤ) : Player :=
  { player_id := id, elo := 1500, faceoffs_taken := 0, offensive_faceoffs := 0,
    defensive_faceoffs := 0, neutral_faceoffs := 0, time_on_ice_seconds := 0 }

/-- `get_or_create_player` from the optimizer: insert a default record on
first encounter, otherwise leave the dictionary unchanged. -/
noncomputable def getOrCreate (ps : Players) (id : ℤ) : Players :=
  if (ps id).isSome then ps else insertP ps id (defaultPlayer id)

/-- The zone-count block shared verbatim by `process_faceoff`
(`calculate_elo.py` lines 74-82) and both optimizer loops: `if/elif/elif`
on the zone code, with no `else` branch. -/
def applyZone (winner loser : Player) (zone_code : String) : Player × Player :=
  if zone_code = "N" then
    ({ winner with neutral_faceoffs := winner.neutral_faceoffs + 1 },
     { loser with neutral_faceoffs := loser.neutral_faceoffs + 1 })
  else if zone_code = "O" then
    ({ winner with offensive_faceoffs := winner.offensive_faceoffs + 1 },
     { loser with defensive_faceoffs := loser.defensive_faceoffs + 1 })
  else if zone_code = "D" then
    ({ winner with defensive_faceoffs := winner.defensive_faceoffs + 1 },
     { loser with offensive_faceoffs := loser.offensive_faceoffs + 1 })
  else (winner, loser)

/-- `process_faceoff` (`calculate_elo.py` lines 50-82), acting on the two
player records looked up by the caller: expected scores from current Elos,
`update_elo` with `S = 1` for the winner and `S = 0` for the loser,
increment `faceoffs_taken` for both, then the zone-count block. -/
noncomputable def process_faceoff (winner loser : Player) (zone_code : String) (k : ℝ) :
    Player × Player :=
  let winner_expected := calculate_expected_score winner.elo loser.elo
  let loser_expected := calculate_expected_score loser.elo winner.elo
  let w1 : Player := { winner with elo := update_elo winner.elo winner_expected 1 k }
  let l1 : Player := { loser with elo := update_elo loser.elo loser_expected 0 k }
  let w2 : Player := { w1 with faceoffs_taken := w1.faceoffs_taken + 1 }
  let l2 : Player := { l1 with faceoffs_taken := l1.faceoffs_taken + 1 }
  applyZone w2 l2 zone_code

/-- One iteration of the main loop of `run_elo_calculation`
(`calculate_elo.py` lines 116-124): read the ids and zone code, test
Python truthiness (`if winner_id and loser_id`, so `None` and `0` are both
skipped), then `process_faceoff` on the dictionary and increment
`total_faceoffs`.  A missing dictionary entry is a `KeyError`, modelled as
`none`. -/
noncomputable def calcStep (st : Players × ℕ) (ev : Event) : Option (Players × ℕ) :=
  match ev.winnerId, ev.loserId with
  | some winner_id, some loser_id =>
      if winner_id = 0 ∨ loser_id = 0 then some st
      else
        match st.1 winner_id, st.1 loser_id with
        | some w, some l =>
            let wl := process_faceoff w l (ev.zoneCode.getD "N") K_FACTOR
            some (insertP (insertP st.1 winner_id wl.1) loser_id wl.2, st.2 + 1)
        | _, _ => none
  | _, _ => some st

/-- The main loop of `run_elo_calculation` over a flat chronological event
list, carrying the player dictionary and the `total_faceoffs` counter. -/
noncomputable def run_elo_calculation (players : Players) (events : List Event) :
    Option (Players × ℕ) :=
  events.foldlM calcStep (players, 0)

/-- `train_faceoffs_target = int(total_faceoffs_all * 0.8)` from
`run_k_optimization` (`optimize_k.py` line 107): the row count times the
split fraction `0.8`, truncated (equivalently floored, the product being
non-negative). -/
def train_faceoffs_target (total_faceoffs_all : ℕ) : ℕ :=
  Nat.floor ((total_faceoffs_all : ℚ) * (8 / 10))

/-- `val_faceoffs_target = total_faceoffs_all - train_faceoffs_target`
(`optimize_k.py` line 108). -/
def val_faceoffs_target (total_faceoffs_all : ℕ) : ℕ :=
  total_faceoffs_all - train_faceoffs_target total_faceoffs_all

/-- `faceoffs_per_minute` from the optimizer and `matchup_elo.py`:
`0.0` when the time on ice is not positive, otherwise
`faceoffs_taken / (toi_seconds / 60)`. -/
def faceoffs_per_minute (p : Player) : ℚ :=
  if p.time_on_ice_seconds ≤ 0 then 0
  else (p.faceoffs_taken : ℚ) / (p.time_on_ice_seconds / 60)

/-- The mutable bookkeeping of one `run_k_optimization` pass: the player
dictionary, the per-segment assigned/processed row counters, and the
validation metrics. -/
structure OptState where
  players : Players
  train_faceoffs_assigned : ℕ
  val_faceoffs_assigned : ℕ
  train_faceoffs_processed : ℕ
  val_faceoffs_processed : ℕ
  total_log_loss : ℝ
  valid_predictions : ℕ
  skipped_low_faceoffs : ℕ
  skipped_low_faceoffs_per_minute : ℕ
  new_players_in_validation : ℕ

/-- The optimizer's starting state: the (deep-copied) initial player
dictionary and zeroed counters. -/
noncomputable def initOptState (players : Players) : OptState :=
  { players := players, train_faceoffs_assigned := 0, val_faceoffs_assigned := 0,
    train_faceoffs_processed := 0, val_faceoffs_processed := 0, total_log_loss := 0,
    valid_predictions := 0, skipped_low_faceoffs := 0,
    skipped_low_faceoffs_per_minute := 0, new_players_in_validation := 0 }

/-- The training branch of the optimizer loop (`optimize_k.py` lines
169-207): count the row as assigned, skip falsy ids, `get_or_create` both
players, Elo update, count update, zone-count block, and count the row as
processed. -/
noncomputable def trainStep (k : ℝ) (s : OptState) (ev : Event) : OptState :=
  let s1 := { s with train_faceoffs_assigned := s.train_faceoffs_assigned + 1 }
  match ev.winnerId, ev.loserId with
  | some winner_id, some loser_id =>
      if winner_id = 0 ∨ loser_id = 0 then s1
      else
        let ps := getOrCreate (getOrCreate s1.players winner_id) loser_id
        let w := playerAt ps winner_id
        let l := playerAt ps loser_id
        let wl := process_faceoff w l (ev.zoneCode.getD "N") k
        { s1 with
          players := insertP (insertP ps winner_id wl.1) loser_id wl.2,
          train_faceoffs_processed := s1.train_faceoffs_processed + 1 }
  | _, _ => s1

/-- The validation branch of the optimizer loop (`optimize_k.py` lines
219-285): count the row as assigned, skip falsy ids, create unseen players
(counting them), read the pre-update faceoff counts, predict with the
*current* Elos, score or skip by the experience and optional
faceoffs-per-minute filters, then apply the Elo/count/zone updates
regardless and count the row as processed. -/
noncomputable def valStep (k : ℝ) (min_faceoffs_per_minute : Option ℚ)
    (s : OptState) (ev : Event) : OptState :=
  let s1 := { s with val_faceoffs_assigned := s.val_faceoffs_assigned + 1 }
  match ev.winnerId, ev.loserId with
  | some winner_id, some loser_id =>
      if winner_id = 0 ∨ loser_id = 0 then s1
      else
        let new1 := s1.new_players_in_validation +
          (if (s1.players winner_id).isSome then 0 else 1)
        let ps1 := getOrCreate s1.players winner_id
        let new2 := new1 + (if (ps1 loser_id).isSome then 0 else 1)
        let ps2 := getOrCreate ps1 loser_id
        let w := playerAt ps2 winner_id
        let l := playerAt ps2 loser_id
        let winner_taken := w.faceoffs_taken
        let loser_taken := l.faceoffs_taken
        let predicted_prob := calculate_expected_score w.elo l.elo
        let acc : ℝ × ℕ × ℕ × ℕ :=
          if 50 < winner_taken ∧ 50 < loser_taken then
            match min_faceoffs_per_minute with
            | some m =>
                if faceoffs_per_minute w < m ∨ faceoffs_per_minute l < m then
                  (s1.total_log_loss, s1.valid_predictions, s1.skipped_low_faceoffs,
                   s1.skipped_low_faceoffs_per_minute + 1)
                else
                  (s1.total_log_loss + log_loss_single predicted_prob 1,
                   s1.valid_predictions + 1, s1.skipped_low_faceoffs,
                   s1.skipped_low_faceoffs_per_minute)
            | none =>
                (s1.total_log_loss + log_loss_single predicted_prob 1,
                 s1.valid_predictions + 1, s1.skipped_low_faceoffs,
                 s1.skipped_low_faceoffs_per_minute)
          else
            (s1.total_log_loss, s1.valid_predictions, s1.skipped_low_faceoffs + 1,
             s1.skipped_low_faceoffs_per_minute)
        let winner_expected := predicted_prob
        let loser_expected := calculate_expected_score l.elo w.elo
        let w1 : Player := { w with elo := update_elo w.elo winner_expected 1 k }
        let l1 : Player := { l with elo := update_elo l.elo loser_expected 0 k }
        let w2 : Player := { w1 with faceoffs_taken := w1.faceoffs_taken + 1 }
        let l2 : Player := { l1 with faceoffs_taken := l1.faceoffs_taken + 1 }
        let wl := applyZone w2 l2 (ev.zoneCode.getD "N")
        { s1 with
          players := insertP (insertP ps2 winner_id wl.1) loser_id wl.2,
          total_log_loss := acc.1,
          valid_predictions := acc.2.1,
          skipped_low_faceoffs := acc.2.2.1,
          skipped_low_faceoffs_per_minute := acc.2.2.2,
          new_players_in_validation := new2,
          val_faceoffs_processed := s1.val_faceoffs_processed + 1 }
  | _, _ => s1

/-- One iteration of the combined optimizer loop: a row is assigned to
training while `train_faceoffs_assigned < train_faceoffs_target`, and to
validation afterwards (`optimize_k.py` line 169). -/
noncomputable def optStep (k : ℝ) (min_fpm : Option ℚ) (tgt : ℕ)
    (s : OptState) (ev : Event) : OptState :=
  if s.train_faceoffs_assigned < tgt then trainStep k s ev else valStep k min_fpm s ev

/-- The full single-`K` optimizer pass over the flat chronological row
sequence. -/
noncomputable def optRun (k : ℝ) (min_fpm : Option ℚ) (tgt : ℕ)
    (players : Players) (events : List Event) : OptState :=
  events.foldl (optStep k min_fpm tgt) (initOptState players)

/-- Whether the row at position `n` (0-based) is assigned to the training
segment: the branch taken by `optStep` given the state after the first `n`
rows. -/
noncomputable def assignedToTraining (k : ℝ) (min_fpm : Option ℚ) (tgt : ℕ)
    (players : Players) (events : List Event) (n : ℕ) : Bool :=
  decide ((optRun k min_fpm tgt players (events.take n)).train_faceoffs_assigned < tgt)

/-- `get_player_weights` from `matchup_elo.py` (lines 25-74): empty list
gives `[]`; a single player gets weight `[1.0]`; otherwise normalize the
faceoffs-per-minute vector and the raw faceoff-count vector (uniform
fallback when a total is zero), combine with `alpha`/`beta`, and
renormalize (uniform fallback when the combined sum is not positive). -/
def get_player_weights (players : List Player) (alpha beta : ℚ) : List ℚ :=
  if players.length = 0 then []
  else if players.length = 1 then [1]
  else
    let fpm := players.map faceoffs_per_minute
    let faceoffs := players.map (fun p => (p.faceoffs_taken : ℚ))
    let sum_fpm := fpm.sum
    let sum_faceoffs := faceoffs.sum
    let fpm_norm := if 0 < sum_fpm then fpm.map (fun x => x / sum_fpm)
      else List.replicate players.length (1 / (players.length : ℚ))
    let faceoffs_norm := if 0 < sum_faceoffs then faceoffs.map (fun x => x / sum_faceoffs)
      else List.replicate players.length (1 / (players.length : ℚ))
    let weights := List.zipWith (fun f g => alpha * f + beta * g) fpm_norm faceoffs_norm
    let w_sum := weights.sum
    if w_sum ≤ 0 then List.replicate players.length (1 / (players.length : ℚ))
    else weights.map (fun w => w / w_sum)

/-- `win_probability` from `matchup_elo.py`:
`1.0 / (1.0 + 10 ** ((elo2 - elo1) / 400.0))`. -/
noncomputable def win_probability (elo1 elo2 : ℝ) : ℝ :=
  1 / (1 + (10 : ℝ) ^ ((elo2 - elo1) / 400))

/-- The aggregate of `main` in `matchup_elo.py` (lines 122-129): the double
sum over the two sides of the pairwise win probability times the product of
the corresponding weights. -/
noncomputable def overall_win_probability (players1 players2 : List Player)
    (weights1 weights2 : List ℚ) : ℝ :=
  ((players1.zip weights1).map (fun pw1 =>
    ((players2.zip weights2).map (fun pw2 =>
      win_probability pw1.1.elo pw2.1.elo * ((pw1.2 : ℝ) * (pw2.2 : ℝ)))).sum)).sum

/-- The three zone counters partition `faceoffs_taken`. -/
def zonePartition (p : Player) : Prop :=
  p.offensive_faceoffs + p.defensive_faceoffs + p.neutral_faceoffs = p.faceoffs_taken

/-- `zonePartition` lifted to an optional record (vacuous for `none`). -/
def zonePartitionOpt : Option Player → Prop
  | none => True
  | some p => zonePartition p

/-- The event's effective zone code (after the loop's `.get("zoneCode", "N")`
defaulting) is one of the three recognized codes. -/
def recognizedZone (ev : Event) : Prop :=
  ev.zoneCode.getD "N" = "N" ∨ ev.zoneCode.getD "N" = "O" ∨ ev.zoneCode.getD "N" = "D"

/-- Whether the validation branch scores a row: both pre-update experience
counts strictly above 50 and, when the faceoffs-per-minute filter is
configured, neither side below the threshold. -/
def scoresEvent (min_fpm : Option ℚ) (w l : Player) : Bool :=
  (decide (50 < w.faceoffs_taken) && decide (50 < l.faceoffs_taken)) &&
    (match min_fpm with
     | none => true
     | some m => !(decide (faceoffs_per_minute w < m) || decide (faceoffs_per_minute l < m)))

/-! ## Helper lemmas -/

theorem rpow_ten_pos (x : ℝ) : 0 < (10 : ℝ) ^ x :=
  Real.rpow_pos_of_pos (by norm_num) x

/-- Symmetry of the logistic model: the two expected scores of one event
sum to one. -/
theorem expected_score_sum (a b : ℝ) :
    calculate_expected_score a b + calculate_expected_score b a = 1 := by
  unfold calculate_expected_score
  have hx : 0 < (10 : ℝ) ^ ((b - a) / 400) := rpow_ten_pos _
  have hy : 0 < (10 : ℝ) ^ ((a - b) / 400) := rpow_ten_pos _
  have hxy : (10 : ℝ) ^ ((b - a) / 400) * (10 : ℝ) ^ ((a - b) / 400) = 1 := by
    rw [← Real.rpow_add (by norm_num : (0 : ℝ) < 10)]
    have h0 : (b - a) / 400 + (a - b) / 400 = 0 := by ring
    rw [h0, Real.rpow_zero]
  have h1 : (1 : ℝ) + (10 : ℝ) ^ ((b - a) / 400) ≠ 0 := by positivity
  have h2 : (1 : ℝ) + (10 : ℝ) ^ ((a - b) / 400) ≠ 0 := by positivity
  field_simp
  linear_combination (-1 : ℝ) * hxy

theorem applyZone_fst_elo (w l : Player) (z : String) :
    (applyZone w l z).1.elo = w.elo := by
  unfold applyZone; split_ifs <;> rfl

theorem applyZone_snd_elo (w l : Player) (z : String) :
    (applyZone w l z).2.elo = l.elo := by
  unfold applyZone; split_ifs <;> rfl

theorem applyZone_fst_taken (w l : Player) (z : String) :
    (applyZone w l z).1.faceoffs_taken = w.faceoffs_taken := by
  unfold applyZone; split_ifs <;> rfl

theorem applyZone_snd_taken (w l : Player) (z : String) :
    (applyZone w l z).2.faceoffs_taken = l.faceoffs_taken := by
  unfold applyZone; split_ifs <;> rfl

theorem process_faceoff_fst_elo (w l : Player) (z : String) (k : ℝ) :
    (process_faceoff w l z k).1.elo
      = update_elo w.elo (calculate_expected_score w.elo l.elo) 1 k := by
  unfold process_faceoff
  rw [applyZone_fst_elo]

theorem process_faceoff_snd_elo (w l : Player) (z : String) (k : ℝ) :
    (process_faceoff w l z k).2.elo
      = update_elo l.elo (calculate_expected_score l.elo w.elo) 0 k := by
  unfold process_faceoff
  rw [applyZone_snd_elo]

theorem process_faceoff_fst_taken (w l : Player) (z : String) (k : ℝ) :
    (process_faceoff w l z k).1.faceoffs_taken = w.faceoffs_taken + 1 := by
  unfold process_faceoff
  rw [applyZone_fst_taken]

theorem process_faceoff_snd_taken (w l : Player) (z : String) (k : ℝ) :
    (process_faceoff w l z k).2.faceoffs_taken = l.faceoffs_taken + 1 := by
  unfold process_faceoff
  rw [applyZone_snd_taken]

theorem playerAt_insert_same (ps : Players) (id : ℤ) (p : Player) :
    playerAt (insertP ps id p) id = p := by
  simp [playerAt, insertP]

theorem playerAt_insert_other (ps : Players) (id j : ℤ) (p : Player) (h : j ≠ id) :
    playerAt (insertP ps id p) j = playerAt ps j := by
  simp [playerAt, insertP, h]

/-! ## C2: zero-sum rating deltas -/

/-- C2: for every pair of ratings and every `K`, processing one event with
the same `K` for both participants gives the winner a rating delta equal to
the negative of the loser's delta, because the two expected scores sum
to one. -/
theorem process_faceoff_zero_sum (w l : Player) (zone_code : String) (k : ℝ) :
    (process_faceoff w l zone_code k).1.elo - w.elo
      = -((process_faceoff w l zone_code k).2.elo - l.elo) := by
  rw [process_faceoff_fst_elo, process_faceoff_snd_elo]
  unfold update_elo
  have h := expected_score_sum w.elo l.elo
  linear_combination (-k) * h

/-! ## C7: Scenario A -/

theorem expected_score_equal (r : ℝ) : calculate_expected_score r r = 1 / 2 := by
  unfold calculate_expected_score
  have h0 : (r - r) / 400 = 0 := by ring
  rw [h0, Real.rpow_zero]
  norm_num

/-- C7 (Scenario A): one event between two fresh players at 1500, winner X
and loser Y, with `K = 32` and a neutral zone code: expected score `1/2`
for each side, new ratings exactly 1516 and 1484, `faceoffs_taken = 1`
each and `neutral_faceoffs = 1` each. -/
theorem scenario_a_baseline_faceoff :
    calculate_expected_score (defaultPlayer 1).elo (defaultPlayer 2).elo = 1 / 2 ∧
    calculate_expected_score (defaultPlayer 2).elo (defaultPlayer 1).elo = 1 / 2 ∧
    (process_faceoff (defaultPlayer 1) (defaultPlayer 2) "N" K_FACTOR).1.elo = 1516 ∧
    (process_faceoff (defaultPlayer 1) (defaultPlayer 2) "N" K_FACTOR).2.elo = 1484 ∧
    (process_faceoff (defaultPlayer 1) (defaultPlayer 2) "N" K_FACTOR).1.faceoffs_taken = 1 ∧
    (process_faceoff (defaultPlayer 1) (defaultPlayer 2) "N" K_FACTOR).2.faceoffs_taken = 1 ∧
    (process_faceoff (defaultPlayer 1) (defaultPlayer 2) "N" K_FACTOR).1.neutral_faceoffs = 1 ∧
    (process_faceoff (defaultPlayer 1) (defaultPlayer 2) "N" K_FACTOR).2.neutral_faceoffs = 1 := by
  have hE : calculate_expected_score (defaultPlayer 1).elo (defaultPlayer 2).elo = 1 / 2 :=
    expected_score_equal _
  have hE2 : calculate_expected_score (defaultPlayer 2).elo (defaultPlayer 1).elo = 1 / 2 :=
    expected_score_equal _
  refine ⟨hE, hE2, ?_, ?_, ?_, ?_, ?_, ?_⟩
  · rw [process_faceoff_fst_elo, hE]
    show (defaultPlayer 1).elo + K_FACTOR * (1 - 1 / 2) = 1516
    simp only [defaultPlayer, K_FACTOR]
    norm_num
  · rw [process_faceoff_snd_elo, hE2]
    show (defaultPlayer 2).elo + K_FACTOR * (0 - 1 / 2) = 1484
    simp only [defaultPlayer, K_FACTOR]
    norm_num
  · rw [process_faceoff_fst_taken]; rfl
  · rw [process_faceoff_snd_taken]; rfl
  · simp [process_faceoff, applyZone, defaultPlayer]
  · simp [process_faceoff, applyZone, defaultPlayer]

/-! ## C5: zone-code defaulting -/

/-- C5 counterexample: an event whose zone code is present but
unrecognized (here `"X"`) does **not** increment the winner's neutral
counter — the `if/elif/elif` zone block has no `else` branch, so the claim
that unrecognized codes are treated as neutral fails. -/
theorem unrecognized_zone_counterexample :
    ¬ ((process_faceoff (defaultPlayer 1) (defaultPlayer 2) "X" K_FACTOR).1.neutral_faceoffs
        = (defaultPlayer 1).neutral_faceoffs + 1) := by
  simp [process_faceoff, applyZone, defaultPlayer]

/-- C5 amended: an *absent* zone code defaults to `"N"` and increments both
neutral counters; a present but *unrecognized* zone code increments no
category counter for either participant.  In both cases processing is a
total function (never raises): both sides' `faceoffs_taken` are still
incremented and the Elo updates still apply. -/
theorem zone_code_defaulting (w l : Player) (k : ℝ) (z : String)
    (hz : z ≠ "N" ∧ z ≠ "O" ∧ z ≠ "D") :
    ((process_faceoff w l ((none : Option String).getD "N") k).1.neutral_faceoffs
        = w.neutral_faceoffs + 1) ∧
    ((process_faceoff w l ((none : Option String).getD "N") k).2.neutral_faceoffs
        = l.neutral_faceoffs + 1) ∧
    ((process_faceoff w l z k).1.neutral_faceoffs = w.neutral_faceoffs) ∧
    ((process_faceoff w l z k).1.offensive_faceoffs = w.offensive_faceoffs) ∧
    ((process_faceoff w l z k).1.defensive_faceoffs = w.defensive_faceoffs) ∧
    ((process_faceoff w l z k).2.neutral_faceoffs = l.neutral_faceoffs) ∧
    ((process_faceoff w l z k).2.offensive_faceoffs = l.offensive_faceoffs) ∧
    ((process_faceoff w l z k).2.defensive_faceoffs = l.defensive_faceoffs) ∧
    ((process_faceoff w l z k).1.faceoffs_taken = w.faceoffs_taken + 1) ∧
    ((process_faceoff w l z k).2.faceoffs_taken = l.faceoffs_taken + 1) := by
  obtain ⟨hn, ho, hd⟩ := hz
  refine ⟨?_, ?_, ?_, ?_, ?_, ?_, ?_, ?_, ?_, ?_⟩ <;>
    simp [process_faceoff, applyZone, hn, ho, hd]

/-- Witness for `zone_code_defaulting` at the concrete unrecognized
code `"X"`. -/
theorem zone_code_defaulting_witness :
    ((process_faceoff (defaultPlayer 1) (defaultPlayer 2)
        ((none : Option String).getD "N") K_FACTOR).1.neutral_faceoffs
        = (defaultPlayer 1).neutral_faceoffs + 1) ∧
    ((process_faceoff (defaultPlayer 1) (defaultPlayer 2)
        ((none : Option String).getD "N") K_FACTOR).2.neutral_faceoffs
        = (defaultPlayer 2).neutral_faceoffs + 1) ∧
    ((process_faceoff (defaultPlayer 1) (defaultPlayer 2) "X" K_FACTOR).1.neutral_faceoffs
        = (defaultPlayer 1).neutral_faceoffs) ∧
    ((process_faceoff (defaultPlayer 1) (defaultPlayer 2) "X" K_FACTOR).1.offensive_faceoffs
        = (defaultPlayer 1).offensive_faceoffs) ∧
    ((process_faceoff (defaultPlayer 1) (defaultPlayer 2) "X" K_FACTOR).1.defensive_faceoffs
        = (defaultPlayer 1).defensive_faceoffs) ∧
    ((process_faceoff (defaultPlayer 1) (defaultPlayer 2) "X" K_FACTOR).2.neutral_faceoffs
        = (defaultPlayer 2).neutral_faceoffs) ∧
    ((process_faceoff (defaultPlayer 1) (defaultPlayer 2) "X" K_FACTOR).2.offensive_faceoffs
        = (defaultPlayer 2).offensive_faceoffs) ∧
    ((process_faceoff (defaultPlayer 1) (defaultPlayer 2) "X" K_FACTOR).2.defensive_faceoffs
        = (defaultPlayer 2).defensive_faceoffs) ∧
    ((process_faceoff (defaultPlayer 1) (defaultPlayer 2) "X" K_FACTOR).1.faceoffs_taken
        = (defaultPlayer 1).faceoffs_taken + 1) ∧
    ((process_faceoff (defaultPlayer 1) (defaultPlayer 2) "X" K_FACTOR).2.faceoffs_taken
        = (defaultPlayer 2).faceoffs_taken + 1) :=
  zone_code_defaulting (defaultPlayer 1) (defaultPlayer 2) K_FACTOR "X"
    (by refine ⟨?_, ?_, ?_⟩ <;> decide)

/-! ## C6: the zone counters partition `faceoffs_taken` -/

/-- C6 counterexample: both fresh players satisfy the partition invariant,
but processing a single event whose zone code is the unrecognized `"X"`
breaks it for the winner: `faceoffs_taken` becomes 1 while no category
counter is incremented. -/
theorem category_partition_counterexample :
    zonePartition (defaultPlayer 1) ∧ zonePartition (defaultPlayer 2) ∧
    ¬ zonePartition (process_faceoff (defaultPlayer 1) (defaultPlayer 2) "X" K_FACTOR).1 := by
  refine ⟨rfl, rfl, ?_⟩
  simp [zonePartition, process_faceoff, applyZone, defaultPlayer]

theorem process_faceoff_partition_fst (w l : Player) (z : String) (k : ℝ)
    (hz : z = "N" ∨ z = "O" ∨ z = "D") (hw : zonePartition w) :
    zonePartition (process_faceoff w l z k).1 := by
  unfold zonePartition at hw ⊢
  rcases hz with h | h | h <;> subst h <;>
    simp [process_faceoff, applyZone] <;> omega

theorem process_faceoff_partition_snd (w l : Player) (z : String) (k : ℝ)
    (hz : z = "N" ∨ z = "O" ∨ z = "D") (hl : zonePartition l) :
    zonePartition (process_faceoff w l z k).2 := by
  unfold zonePartition at hl ⊢
  rcases hz with h | h | h <;> subst h <;>
    simp [process_faceoff, applyZone] <;> omega

theorem calcStep_partition (st : Players × ℕ) (ev : Event) (id : ℤ)
    (hz : recognizedZone ev) (hp : zonePartitionOpt (st.1 id)) :
    (calcStep st ev).elim True (fun r => zonePartitionOpt (r.1 id)) := by
  obtain ⟨wo, lo, zo⟩ := ev
  cases wo with
  | none => simpa [calcStep] using hp
  | some winner_id =>
    cases lo with
    | none => simpa [calcStep] using hp
    | some loser_id =>
      by_cases h0 : winner_id = 0 ∨ loser_id = 0
      · simpa [calcStep, h0] using hp
      · cases hw : st.1 winner_id with
        | none => simp [calcStep, h0, hw]
        | some w =>
          cases hl : st.1 loser_id with
          | none => simp [calcStep, h0, hw, hl]
          | some l =>
            simp only [calcStep, h0, if_false, hw, hl, Option.elim_some]
            have hzz : recognizedZone ⟨some winner_id, some loser_id, zo⟩ := hz
            unfold recognizedZone at hzz
            by_cases hid2 : id = loser_id
            · subst hid2
              have hlp : zonePartition l := by
                rw [hl] at hp; exact hp
              simpa [insertP, zonePartitionOpt] using
                process_faceoff_partition_snd w l (zo.getD "N") K_FACTOR hzz hlp
            · by_cases hid1 : id = winner_id
              · subst hid1
                have hwp : zonePartition w := by
                  rw [hw] at hp; exact hp
                simpa [insertP, hid2, zonePartitionOpt] using
                  process_faceoff_partition_fst w l (zo.getD "N") K_FACTOR hzz hwp
              · simpa [insertP, hid2, hid1, zonePartitionOpt] using hp

theorem foldCalc_partition (events : List Event) (st : Players × ℕ) (id : ℤ)
    (hz : ∀ ev ∈ events, recognizedZone ev) (hp : zonePartitionOpt (st.1 id)) :
    (events.foldlM calcStep st).elim True (fun r => zonePartitionOpt (r.1 id)) := by
  induction events generalizing st with
  | nil => simpa using hp
  | cons ev evs ih =>
    have h1 := calcStep_partition st ev id (hz ev (by simp)) hp
    cases hc : calcStep st ev with
    | none => simp [List.foldlM_cons, hc]
    | some st1 =>
      rw [hc] at h1
      have h2 := ih st1 (fun e he => hz e (by simp [he])) h1
      simpa [List.foldlM_cons, hc] using h2

/-- C6 amended: for any participant whose record satisfies
`offensive + defensive + neutral = faceoffs_taken`, the main calculation
loop preserves the invariant *provided every event's effective zone code is
one of the recognized codes* `"N"`, `"O"`, `"D"` (an absent code defaults
to `"N"`).  An unrecognized present code breaks the invariant, as the
counterexample shows. -/
theorem category_partition_invariant (players : Players) (events : List Event) (id : ℤ)
    (hz : ∀ ev ∈ events, recognizedZone ev)
    (hp : zonePartitionOpt (players id)) :
    (run_elo_calculation players events).elim True
      (fun r => zonePartitionOpt (r.1 id)) :=
  foldCalc_partition events (players, 0) id hz hp

/-- The empty player dictionary. -/
def emptyPlayers : Players := fun _ => none

/-- A concrete two-player dictionary used by the witnesses. -/
noncomputable def samplePlayers : Players :=
  insertP (insertP emptyPlayers 1 (defaultPlayer 1)) 2 (defaultPlayer 2)

/-- Witness for `category_partition_invariant`: a one-event run with a
recognized offensive-zone code, starting from two fresh players. -/
theorem category_partition_invariant_witness :
    (∀ ev ∈ [(⟨some 1, some 2, some "O"⟩ : Event)], recognizedZone ev) ∧
    zonePartitionOpt (samplePlayers 1) ∧
    (run_elo_calculation samplePlayers [(⟨some 1, some 2, some "O"⟩ : Event)]).elim True
      (fun r => zonePartitionOpt (r.1 1)) := by
  have h1 : ∀ ev ∈ [(⟨some 1, some 2, some "O"⟩ : Event)], recognizedZone ev := by
    intro ev hev
    simp only [List.mem_singleton] at hev
    subst hev
    right; left; rfl
  have h2 : zonePartitionOpt (samplePlayers 1) := by
    show zonePartition (defaultPlayer 1)
    rfl
  exact ⟨h1, h2, category_partition_invariant samplePlayers _ 1 h1 h2⟩

/-! ## C3: the experience filter on validation rows -/

/-- C3: with the participation-rate filter disabled
(`min_faceoffs_per_minute = none`), a validation row with both ids present
and truthy contributes to the log-loss accumulator if and only if both
participants have strictly more than 50 faceoffs taken before this row;
otherwise it is counted in `skipped_low_faceoffs`.  In particular a row
between two players with exactly 50 prior faceoffs each is excluded and
counted as a low-experience skip. -/
theorem validation_experience_filter (k : ℝ) (s : OptState) (ev : Event)
    (winner_id loser_id : ℤ)
    (hw : ev.winnerId = some winner_id) (hl : ev.loserId = some loser_id)
    (hw0 : winner_id ≠ 0) (hl0 : loser_id ≠ 0) :
    let ps2 := getOrCreate (getOrCreate s.players winner_id) loser_id
    let wtaken := (playerAt ps2 winner_id).faceoffs_taken
    let ltaken := (playerAt ps2 loser_id).faceoffs_taken
    ((valStep k none s ev).valid_predictions = s.valid_predictions + 1
        ↔ (50 < wtaken ∧ 50 < ltaken)) ∧
    ((valStep k none s ev).skipped_low_faceoffs = s.skipped_low_faceoffs + 1
        ↔ ¬ (50 < wtaken ∧ 50 < ltaken)) ∧
    ((valStep k none s ev).total_log_loss
        = s.total_log_loss +
            (if 50 < wtaken ∧ 50 < ltaken then
              log_loss_single
                (calculate_expected_score (playerAt ps2 winner_id).elo
                  (playerAt ps2 loser_id).elo) 1
             else 0)) ∧
    (wtaken = 50 → ltaken = 50 →
      (valStep k none s ev).valid_predictions = s.valid_predictions ∧
      (valStep k none s ev).skipped_low_faceoffs = s.skipped_low_faceoffs + 1) := by
  intro ps2 wtaken ltaken
  obtain ⟨wo, lo, zo⟩ := ev
  simp only [Event.winnerId] at hw
  simp only [Event.loserId] at hl
  subst hw; subst hl
  by_cases hcond : 50 < wtaken ∧ 50 < ltaken
  · constructor
    · simp [valStep, hw0, hl0, ps2, wtaken, ltaken, hcond]
    constructor
    · simp [valStep, hw0, hl0, ps2, wtaken, ltaken, hcond]
    constructor
    · simp [valStep, hw0, hl0, ps2, wtaken, ltaken, hcond]
    · intro h50w h50l
      exact absurd hcond (by omega)
  · constructor
    · simp [valStep, hw0, hl0, ps2, wtaken, ltaken, hcond]
    constructor
    · simp [valStep, hw0, hl0, ps2, wtaken, ltaken, hcond]
    constructor
    · simp [valStep, hw0, hl0, ps2, wtaken, ltaken, hcond]
    · intro _ _
      constructor
      · simp [valStep, hw0, hl0, ps2, wtaken, ltaken, hcond]
      · simp [valStep, hw0, hl0, ps2, wtaken, ltaken, hcond]

/-- A player record with a given experience count, used by the witnesses. -/
noncomputable def experiencedPlayer (id : ℤ) (taken : ℕ) : Player :=
  { defaultPlayer id with faceoffs_taken := taken }

/-- A dictionary holding two players with exactly 50 faceoffs each. -/
noncomputable def fiftyPlayers : Players :=
  insertP (insertP emptyPlayers 1 (experiencedPlayer 1 50)) 2 (experiencedPlayer 2 50)

/-- Witness for `validation_experience_filter`: a validation row between two
players with exactly 50 prior faceoffs each, which must be skipped. -/
theorem validation_experience_filter_witness :
    ((valStep 32 none (initOptState fiftyPlayers) ⟨some 1, some 2, some "N"⟩).valid_predictions
        = (initOptState fiftyPlayers).valid_predictions + 1
      ↔ (50 < (playerAt (getOrCreate (getOrCreate (initOptState fiftyPlayers).players 1) 2)
                1).faceoffs_taken ∧
         50 < (playerAt (getOrCreate (getOrCreate (initOptState fiftyPlayers).players 1) 2)
                2).faceoffs_taken)) ∧
    ((valStep 32 none (initOptState fiftyPlayers) ⟨some 1, some 2, some "N"⟩).skipped_low_faceoffs
        = (initOptState fiftyPlayers).skipped_low_faceoffs + 1
      ↔ ¬ (50 < (playerAt (getOrCreate (getOrCreate (initOptState fiftyPlayers).players 1) 2)
                1).faceoffs_taken ∧
           50 < (playerAt (getOrCreate (getOrCreate (initOptState fiftyPlayers).players 1) 2)
                2).faceoffs_taken)) ∧
    ((valStep 32 none (initOptState fiftyPlayers) ⟨some 1, some 2, some "N"⟩).total_log_loss
        = (initOptState fiftyPlayers).total_log_loss +
            (if 50 < (playerAt (getOrCreate (getOrCreate (initOptState fiftyPlayers).players 1) 2)
                  1).faceoffs_taken ∧
                50 < (playerAt (getOrCreate (getOrCreate (initOptState fiftyPlayers).players 1) 2)
                  2).faceoffs_taken then
              log_loss_single
                (calculate_expected_score
                  (playerAt (getOrCreate (getOrCreate (initOptState fiftyPlayers).players 1) 2)
                    1).elo
                  (playerAt (getOrCreate (getOrCreate (initOptState fiftyPlayers).players 1) 2)
                    2).elo) 1
             else 0)) ∧
    ((playerAt (getOrCreate (getOrCreate (initOptState fiftyPlayers).players 1) 2)
        1).faceoffs_taken = 50 →
     (playerAt (getOrCreate (getOrCreate (initOptState fiftyPlayers).players 1) 2)
        2).faceoffs_taken = 50 →
      (valStep 32 none (initOptState fiftyPlayers) ⟨some 1, some 2, some "N"⟩).valid_predictions
          = (initOptState fiftyPlayers).valid_predictions ∧
      (valStep 32 none (initOptState fiftyPlayers) ⟨some 1, some 2, some "N"⟩).skipped_low_faceoffs
          = (initOptState fiftyPlayers).skipped_low_faceoffs + 1) :=
  validation_experience_filter 32 (initOptState fiftyPlayers) ⟨some 1, some 2, some "N"⟩
    1 2 rfl rfl (by decide) (by decide)

/-! ## C4: online evaluation scores pre-update ratings, then updates -/

/-- C4: for a validation row with both ids present and truthy (and two
distinct participants), the probability that is scored — or skipped — is
`calculate_expected_score` of the ratings as they stand *before* this
row's update (with unseen players created at the baseline first), and the
Elo update is applied to both participants regardless of whether the row
was scored, so later validation rows see the updated ratings. -/
theorem validation_online_update (k : ℝ) (mf : Option ℚ) (s : OptState) (ev : Event)
    (winner_id loser_id : ℤ)
    (hw : ev.winnerId = some winner_id) (hl : ev.loserId = some loser_id)
    (hw0 : winner_id ≠ 0) (hl0 : loser_id ≠ 0) (hne : winner_id ≠ loser_id) :
    let ps2 := getOrCreate (getOrCreate s.players winner_id) loser_id
    let w := playerAt ps2 winner_id
    let l := playerAt ps2 loser_id
    let p := calculate_expected_score w.elo l.elo
    ((valStep k mf s ev).total_log_loss
        = s.total_log_loss + (if scoresEvent mf w l then log_loss_single p 1 else 0)) ∧
    ((playerAt (valStep k mf s ev).players winner_id).elo = update_elo w.elo p 1 k) ∧
    ((playerAt (valStep k mf s ev).players loser_id).elo
        = update_elo l.elo (calculate_expected_score l.elo w.elo) 0 k) ∧
    ((playerAt (valStep k mf s ev).players winner_id).faceoffs_taken
        = w.faceoffs_taken + 1) ∧
    ((playerAt (valStep k mf s ev).players loser_id).faceoffs_taken
        = l.faceoffs_taken + 1) ∧
    ((valStep k mf s ev).val_faceoffs_processed = s.val_faceoffs_processed + 1) := by
  intro ps2 w l p
  obtain ⟨wo, lo, zo⟩ := ev
  simp only [Event.winnerId] at hw
  simp only [Event.loserId] at hl
  subst hw; subst hl
  have hlw : loser_id ≠ winner_id := fun h => hne h.symm
  refine ⟨?_, ?_, ?_, ?_, ?_, ?_⟩
  · by_cases hcond : 50 < w.faceoffs_taken ∧ 50 < l.faceoffs_taken
    · cases mf with
      | none =>
        simp [valStep, hw0, hl0, scoresEvent, ps2, w, l, p, hcond.1, hcond.2]
      | some m =>
        by_cases hfpm : faceoffs_per_minute w < m ∨ faceoffs_per_minute l < m
        · simp only [w, l, ps2] at hfpm
          simp [valStep, hw0, hl0, scoresEvent, ps2, w, l, p, hcond.1, hcond.2, hfpm]
          intro h1 h2
          rcases hfpm with h | h
          · exact absurd h (not_lt.mpr h1)
          · exact absurd h (not_lt.mpr h2)
        · simp only [w, l, ps2] at hfpm
          push_neg at hfpm
          simp [valStep, hw0, hl0, scoresEvent, ps2, w, l, p, hcond.1, hcond.2,
            hfpm.1, hfpm.2]
          rw [if_neg]
          rintro (h | h)
          · exact absurd h (not_lt.mpr hfpm.1)
          · exact absurd h (not_lt.mpr hfpm.2)
    · have hsc : scoresEvent mf w l = false := by
        unfold scoresEvent
        rcases Nat.lt_or_ge 50 w.faceoffs_taken with h1 | h1
        · have h2 : ¬ 50 < l.faceoffs_taken := fun h => hcond ⟨h1, h⟩
          simp [h2]
        · have h2 : ¬ 50 < w.faceoffs_taken := by omega
          simp [h2]
      simp [valStep, hw0, hl0, ps2, w, l, p, hcond, hsc]
  · simp only [valStep, hw0, hl0, ne_eq, if_false, false_or, ite_false]
    rw [playerAt_insert_other _ _ _ _ hne, playerAt_insert_same, applyZone_fst_elo]
  · simp only [valStep, hw0, hl0, ne_eq, if_false, false_or, ite_false]
    rw [playerAt_insert_same, applyZone_snd_elo]
  · simp only [valStep, hw0, hl0, ne_eq, if_false, false_or, ite_false]
    rw [playerAt_insert_other _ _ _ _ hne, playerAt_insert_same, applyZone_fst_taken]
  · simp only [valStep, hw0, hl0, ne_eq, if_false, false_or, ite_false]
    rw [playerAt_insert_same, applyZone_snd_taken]
  · simp [valStep, hw0, hl0]

/-- A dictionary holding two players with 60 faceoffs each (above the
experience threshold). -/
noncomputable def sixtyPlayers : Players :=
  insertP (insertP emptyPlayers 1 (experiencedPlayer 1 60)) 2 (experiencedPlayer 2 60)

/-- Witness for `validation_online_update` at a concrete validation row
between two experienced players. -/
theorem validation_online_update_witness :
    (let ps2 := getOrCreate (getOrCreate (initOptState sixtyPlayers).players 1) 2
     let w := playerAt ps2 1
     let l := playerAt ps2 2
     let p := calculate_expected_score w.elo l.elo
     ((valStep 32 none (initOptState sixtyPlayers)
          ⟨some 1, some 2, some "N"⟩).total_log_loss
        = (initOptState sixtyPlayers).total_log_loss +
            (if scoresEvent none w l then log_loss_single p 1 else 0)) ∧
     ((playerAt (valStep 32 none (initOptState sixtyPlayers)
          ⟨some 1, some 2, some "N"⟩).players 1).elo = update_elo w.elo p 1 32) ∧
     ((playerAt (valStep 32 none (initOptState sixtyPlayers)
          ⟨some 1, some 2, some "N"⟩).players 2).elo
        = update_elo l.elo (calculate_expected_score l.elo w.elo) 0 32) ∧
     ((playerAt (valStep 32 none (initOptState sixtyPlayers)
          ⟨some 1, some 2, some "N"⟩).players 1).faceoffs_taken
        = w.faceoffs_taken + 1) ∧
     ((playerAt (valStep 32 none (initOptState sixtyPlayers)
          ⟨some 1, some 2, some "N"⟩).players 2).faceoffs_taken
        = l.faceoffs_taken + 1) ∧
     ((valStep 32 none (initOptState sixtyPlayers)
          ⟨some 1, some 2, some "N"⟩).val_faceoffs_processed
        = (initOptState sixtyPlayers).val_faceoffs_processed + 1)) :=
  validation_online_update 32 none (initOptState sixtyPlayers)
    ⟨some 1, some 2, some "N"⟩ 1 2 rfl rfl (by decide) (by decide) (by decide)

/-! ## C10: a present-but-zero id is skipped as falsy -/

/-- C10: an event whose winner or loser id is present but equal to `0` is
skipped in the main calculation loop and in both optimizer branches —
the guard `if winner_id and loser_id` tests Python truthiness, and `0` is
falsy.  No rating, per-player counter or accumulator changes; only the
row-assignment counter of the segment advances. -/
theorem falsy_zero_id_skipped (ps : Players) (n : ℕ) (k : ℝ) (mf : Option ℚ)
    (s : OptState) (ev : Event)
    (h : ev.winnerId = some 0 ∨ ev.loserId = some 0) :
    calcStep (ps, n) ev = some (ps, n) ∧
    (trainStep k s ev).players = s.players ∧
    (trainStep k s ev).train_faceoffs_processed = s.train_faceoffs_processed ∧
    (trainStep k s ev).train_faceoffs_assigned = s.train_faceoffs_assigned + 1 ∧
    (valStep k mf s ev).players = s.players ∧
    (valStep k mf s ev).total_log_loss = s.total_log_loss ∧
    (valStep k mf s ev).valid_predictions = s.valid_predictions ∧
    (valStep k mf s ev).skipped_low_faceoffs = s.skipped_low_faceoffs ∧
    (valStep k mf s ev).skipped_low_faceoffs_per_minute
        = s.skipped_low_faceoffs_per_minute ∧
    (valStep k mf s ev).new_players_in_validation = s.new_players_in_validation ∧
    (valStep k mf s ev).val_faceoffs_processed = s.val_faceoffs_processed ∧
    (valStep k mf s ev).val_faceoffs_assigned = s.val_faceoffs_assigned + 1 := by
  obtain ⟨wo, lo, zo⟩ := ev
  rcases h with h | h
  · simp only [Event.winnerId] at h
    subst h
    cases lo <;>
      refine ⟨?_, ?_, ?_, ?_, ?_, ?_, ?_, ?_, ?_, ?_, ?_, ?_⟩ <;>
        simp [calcStep, trainStep, valStep]
  · simp only [Event.loserId] at h
    subst h
    cases wo <;>
      refine ⟨?_, ?_, ?_, ?_, ?_, ?_, ?_, ?_, ?_, ?_, ?_, ?_⟩ <;>
        simp [calcStep, trainStep, valStep]

/-- Witness for `falsy_zero_id_skipped`: a concrete event whose winner id
is present but zero. -/
theorem falsy_zero_id_skipped_witness :
    calcStep (samplePlayers, 3) ⟨some 0, some 2, some "N"⟩ = some (samplePlayers, 3) ∧
    (trainStep 32 (initOptState samplePlayers) ⟨some 0, some 2, some "N"⟩).players
        = (initOptState samplePlayers).players ∧
    (trainStep 32 (initOptState samplePlayers)
        ⟨some 0, some 2, some "N"⟩).train_faceoffs_processed
        = (initOptState samplePlayers).train_faceoffs_processed ∧
    (trainStep 32 (initOptState samplePlayers)
        ⟨some 0, some 2, some "N"⟩).train_faceoffs_assigned
        = (initOptState samplePlayers).train_faceoffs_assigned + 1 ∧
    (valStep 32 none (initOptState samplePlayers) ⟨some 0, some 2, some "N"⟩).players
        = (initOptState samplePlayers).players ∧
    (valStep 32 none (initOptState samplePlayers)
        ⟨some 0, some 2, some "N"⟩).total_log_loss
        = (initOptState samplePlayers).total_log_loss ∧
    (valStep 32 none (initOptState samplePlayers)
        ⟨some 0, some 2, some "N"⟩).valid_predictions
        = (initOptState samplePlayers).valid_predictions ∧
    (valStep 32 none (initOptState samplePlayers)
        ⟨some 0, some 2, some "N"⟩).skipped_low_faceoffs
        = (initOptState samplePlayers).skipped_low_faceoffs ∧
    (valStep 32 none (initOptState samplePlayers)
        ⟨some 0, some 2, some "N"⟩).skipped_low_faceoffs_per_minute
        = (initOptState samplePlayers).skipped_low_faceoffs_per_minute ∧
    (valStep 32 none (initOptState samplePlayers)
        ⟨some 0, some 2, some "N"⟩).new_players_in_validation
        = (initOptState samplePlayers).new_players_in_validation ∧
    (valStep 32 none (initOptState samplePlayers)
        ⟨some 0, some 2, some "N"⟩).val_faceoffs_processed
        = (initOptState samplePlayers).val_faceoffs_processed ∧
    (valStep 32 none (initOptState samplePlayers)
        ⟨some 0, some 2, some "N"⟩).val_faceoffs_assigned
        = (initOptState samplePlayers).val_faceoffs_assigned + 1 :=
  falsy_zero_id_skipped samplePlayers 3 32 none (initOptState samplePlayers)
    ⟨some 0, some 2, some "N"⟩ (Or.inl rfl)

/-! ## C1: the chronological 80/20 split by event count -/

theorem trainStep_assigned (k : ℝ) (s : OptState) (ev : Event) :
    (trainStep k s ev).train_faceoffs_assigned = s.train_faceoffs_assigned + 1 := by
  obtain ⟨wo, lo, zo⟩ := ev
  cases wo with
  | none => rfl
  | some a =>
    cases lo with
    | none => rfl
    | some b =>
      simp only [trainStep]
      split_ifs <;> rfl

theorem valStep_assigned_train (k : ℝ) (mf : Option ℚ) (s : OptState) (ev : Event) :
    (valStep k mf s ev).train_faceoffs_assigned = s.train_faceoffs_assigned := by
  obtain ⟨wo, lo, zo⟩ := ev
  cases wo with
  | none => rfl
  | some a =>
    cases lo with
    | none => rfl
    | some b =>
      simp only [valStep]
      split_ifs <;> rfl

theorem foldOpt_assigned (k : ℝ) (mf : Option ℚ) (tgt : ℕ) (evs : List Event)
    (s : OptState) :
    (evs.foldl (optStep k mf tgt) s).train_faceoffs_assigned
      = max s.train_faceoffs_assigned
          (min (s.train_faceoffs_assigned + evs.length) tgt) := by
  induction evs generalizing s with
  | nil => simp
  | cons e es ih =>
    rw [List.foldl_cons, ih]
    by_cases hc : s.train_faceoffs_assigned < tgt
    · rw [show optStep k mf tgt s e = trainStep k s e from if_pos hc,
        trainStep_assigned]
      simp only [List.length_cons]
      omega
    · rw [show optStep k mf tgt s e = valStep k mf s e from if_neg hc,
        valStep_assigned_train]
      simp only [List.length_cons]
      omega

theorem train_faceoffs_target_le (N : ℕ) : train_faceoffs_target N ≤ N := by
  unfold train_faceoffs_target
  have h1 : ((N : ℚ) * (8 / 10)) ≤ (N : ℚ) := by
    have h0 : (0 : ℚ) ≤ (N : ℚ) := Nat.cast_nonneg N
    nlinarith
  calc Nat.floor ((N : ℚ) * (8 / 10)) ≤ Nat.floor ((N : ℚ)) := Nat.floor_le_floor h1
    _ = N := Nat.floor_natCast N

/-- C1: with `N` the total number of faceoff rows across all game files
(events, not contests), the split targets are `train = ⌊N * 0.8⌋` and
`val = N - train`, which sum to `N` exactly; and in the single forward pass
of the optimizer loop the row at position `n` of the flattened
chronological sequence is assigned to training exactly when
`n < train_target`, the rest going to validation. -/
theorem split_targets_and_assignment (games : List (List Event)) (k : ℝ)
    (mf : Option ℚ) (players : Players) :
    train_faceoffs_target ((games.map List.length).sum)
        = Nat.floor (((games.map List.length).sum : ℚ) * (8 / 10)) ∧
    train_faceoffs_target ((games.map List.length).sum)
        + val_faceoffs_target ((games.map List.length).sum)
        = (games.map List.length).sum ∧
    games.flatten.length = (games.map List.length).sum ∧
    (∀ n, assignedToTraining k mf (train_faceoffs_target ((games.map List.length).sum))
        players games.flatten n
        = decide (n < train_faceoffs_target ((games.map List.length).sum))) := by
  have hle := train_faceoffs_target_le ((games.map List.length).sum)
  have hlen : games.flatten.length = (games.map List.length).sum := List.length_flatten games
  refine ⟨rfl, ?_, hlen, ?_⟩
  · unfold val_faceoffs_target
    omega
  · intro n
    unfold assignedToTraining optRun
    rw [foldOpt_assigned]
    have h0 : (initOptState players).train_faceoffs_assigned = 0 := rfl
    rw [h0]
    simp only [List.length_take, hlen, decide_eq_decide]
    omega

/-! ## C8: weights are non-negative and sum to one -/

theorem faceoffs_per_minute_nonneg (p : Player) : 0 ≤ faceoffs_per_minute p := by
  unfold faceoffs_per_minute
  split_ifs with h
  · exact le_refl 0
  · push_neg at h
    have h60 : (0 : ℚ) ≤ p.time_on_ice_seconds / 60 := by positivity
    exact div_nonneg (Nat.cast_nonneg _) h60

theorem sum_map_div (l : List ℚ) (s : ℚ) :
    (l.map (fun x => x / s)).sum = l.sum / s := by
  induction l with
  | nil => simp
  | cons x xs ih => simp [ih, add_div]

theorem sum_replicate_inv (n : ℕ) (hn : n ≠ 0) :
    (List.replicate n (1 / (n : ℚ))).sum = 1 := by
  rw [List.sum_replicate, nsmul_eq_mul]
  have hq : (n : ℚ) ≠ 0 := Nat.cast_ne_zero.mpr hn
  field_simp

theorem normBranch_length (xs : List ℚ) (n : ℕ) (hx : xs.length = n) :
    (if 0 < xs.sum then xs.map (fun x => x / xs.sum)
     else List.replicate n (1 / (n : ℚ))).length = n := by
  split_ifs <;> simp [hx]

theorem normBranch_nonneg (xs : List ℚ) (n : ℕ) (hxn : ∀ x ∈ xs, 0 ≤ x) :
    ∀ y ∈ (if 0 < xs.sum then xs.map (fun x => x / xs.sum)
      else List.replicate n (1 / (n : ℚ))), 0 ≤ y := by
  split_ifs with hpos
  · intro y hy
    obtain ⟨x, hxmem, rfl⟩ := List.mem_map.mp hy
    exact div_nonneg (hxn x hxmem) (le_of_lt hpos)
  · intro y hy
    rw [List.eq_of_mem_replicate hy]
    positivity

theorem zipWith_comb_nonneg (alpha beta : ℚ) (ha : 0 ≤ alpha) (hb : 0 ≤ beta) :
    ∀ (xs ys : List ℚ), (∀ x ∈ xs, 0 ≤ x) → (∀ y ∈ ys, 0 ≤ y) →
      ∀ w ∈ List.zipWith (fun f g => alpha * f + beta * g) xs ys, 0 ≤ w := by
  intro xs
  induction xs with
  | nil => intro ys _ _ w hw; simp at hw
  | cons x xs ih =>
    intro ys hx hy w hw
    cases ys with
    | nil => simp at hw
    | cons y ys =>
      rw [List.zipWith_cons_cons, List.mem_cons] at hw
      rcases hw with rfl | hw
      · have h1 : 0 ≤ x := hx x (by simp)
        have h2 : 0 ≤ y := hy y (by simp)
        positivity
      · exact ih ys (fun a hha => hx a (by simp [hha])) (fun b hhb => hy b (by simp [hhb])) w hw

theorem normalizedList_spec (ws : List ℚ) (n : ℕ) (hn : n ≠ 0)
    (hlen : ws.length = n) (hnn : ∀ w ∈ ws, 0 ≤ w) :
    ((if ws.sum ≤ 0 then List.replicate n (1 / (n : ℚ))
      else ws.map (fun w => w / ws.sum)).length = n) ∧
    (∀ w ∈ (if ws.sum ≤ 0 then List.replicate n (1 / (n : ℚ))
      else ws.map (fun w => w / ws.sum)), 0 ≤ w) ∧
    ((if ws.sum ≤ 0 then List.replicate n (1 / (n : ℚ))
      else ws.map (fun w => w / ws.sum)).sum = 1) := by
  split_ifs with hs
  · refine ⟨by simp, ?_, sum_replicate_inv n hn⟩
    intro w hw
    rw [List.eq_of_mem_replicate hw]
    positivity
  · push_neg at hs
    refine ⟨by simp [hlen], ?_, ?_⟩
    · intro w hw
      obtain ⟨x, hxmem, rfl⟩ := List.mem_map.mp hw
      exact div_nonneg (hnn x hxmem) (le_of_lt hs)
    · rw [sum_map_div]
      exact div_self (ne_of_gt hs)

/-- C8: for a non-empty participant list and non-negative combination
coefficients (the source defaults are `alpha = 0.8`, `beta = 0.2`),
`get_player_weights` returns exactly one weight per participant, every
weight is non-negative, and the weights sum to exactly 1 — including the
uniform fallbacks when a normalization total is zero. -/
theorem player_weights_normalized (players : List Player) (alpha beta : ℚ)
    (hne : players ≠ []) (ha : 0 ≤ alpha) (hb : 0 ≤ beta) :
    (get_player_weights players alpha beta).length = players.length ∧
    (∀ w ∈ get_player_weights players alpha beta, 0 ≤ w) ∧
    (get_player_weights players alpha beta).sum = 1 := by
  have hlen0 : players.length ≠ 0 := by
    simpa [List.length_eq_zero] using hne
  unfold get_player_weights
  rw [if_neg hlen0]
  by_cases h2 : players.length = 1
  · rw [if_pos h2]
    refine ⟨by simp [h2], ?_, by simp⟩
    intro w hw
    rw [List.mem_singleton] at hw
    subst hw
    norm_num
  · rw [if_neg h2]
    have hfl : (players.map faceoffs_per_minute).length = players.length :=
      List.length_map _ _
    have hgl : (players.map (fun p => (p.faceoffs_taken : ℚ))).length = players.length :=
      List.length_map _ _
    have hfn : ∀ x ∈ players.map faceoffs_per_minute, 0 ≤ x := by
      intro x hx
      obtain ⟨p, _, rfl⟩ := List.mem_map.mp hx
      exact faceoffs_per_minute_nonneg p
    have hgn : ∀ x ∈ players.map (fun p => (p.faceoffs_taken : ℚ)), 0 ≤ x := by
      intro x hx
      obtain ⟨p, _, rfl⟩ := List.mem_map.mp hx
      exact Nat.cast_nonneg _
    have hfnorm_len := normBranch_length (players.map faceoffs_per_minute)
      players.length hfl
    have hgnorm_len := normBranch_length (players.map (fun p => (p.faceoffs_taken : ℚ)))
      players.length hgl
    have hfnorm_nn := normBranch_nonneg (players.map faceoffs_per_minute)
      players.length hfn
    have hgnorm_nn := normBranch_nonneg (players.map (fun p => (p.faceoffs_taken : ℚ)))
      players.length hgn
    have hws_len : (List.zipWith (fun f g => alpha * f + beta * g)
        (if 0 < (players.map faceoffs_per_minute).sum then
          (players.map faceoffs_per_minute).map
            (fun x => x / (players.map faceoffs_per_minute).sum)
         else List.replicate players.length (1 / (players.length : ℚ)))
        (if 0 < (players.map (fun p => (p.faceoffs_taken : ℚ))).sum then
          (players.map (fun p => (p.faceoffs_taken : ℚ))).map
            (fun x => x / (players.map (fun p => (p.faceoffs_taken : ℚ))).sum)
         else List.replicate players.length (1 / (players.length : ℚ)))).length
        = players.length := by
      rw [List.length_zipWith, hfnorm_len, hgnorm_len, min_self]
    have hws_nn := zipWith_comb_nonneg alpha beta ha hb _ _ hfnorm_nn hgnorm_nn
    exact normalizedList_spec _ players.length hlen0 hws_len hws_nn

/-- Witness for `player_weights_normalized`: two concrete players with the
source's default coefficients `alpha = 4/5`, `beta = 1/5`. -/
theorem player_weights_normalized_witness :
    ((get_player_weights [experiencedPlayer 1 60, experiencedPlayer 2 40]
        (4 / 5) (1 / 5)).length
        = [experiencedPlayer 1 60, experiencedPlayer 2 40].length) ∧
    (∀ w ∈ get_player_weights [experiencedPlayer 1 60, experiencedPlayer 2 40]
        (4 / 5) (1 / 5), 0 ≤ w) ∧
    ((get_player_weights [experiencedPlayer 1 60, experiencedPlayer 2 40]
        (4 / 5) (1 / 5)).sum = 1) :=
  player_weights_normalized [experiencedPlayer 1 60, experiencedPlayer 2 40]
    (4 / 5) (1 / 5) (List.cons_ne_nil _ _) (by norm_num) (by norm_num)

/-! ## C9: a one-against-one group matchup -/

/-- C9: with exactly one participant per side, each side's weight list is
exactly `[1.0]` and the aggregate win probability (the double sum of
pairwise win probabilities weighted by the product of the two weights)
collapses to the pairwise expected score of the two ratings — which for
ratings 1600 vs 1500 lies between 0.6400 and 0.6402 (≈ 0.6401). -/
theorem singleton_matchup_probability (a b : Player) :
    get_player_weights [a] (4 / 5) (1 / 5) = [1] ∧
    get_player_weights [b] (4 / 5) (1 / 5) = [1] ∧
    overall_win_probability [a] [b] [1] [1] = win_probability a.elo b.elo ∧
    win_probability 1600 1500 = calculate_expected_score 1600 1500 ∧
    (0.6400 : ℝ) < win_probability 1600 1500 ∧
    win_probability 1600 1500 < (0.6402 : ℝ) := by
  have hx0 : 0 < (10 : ℝ) ^ (-(1 / 4) : ℝ) := rpow_ten_pos _
  have hx4 : ((10 : ℝ) ^ (-(1 / 4) : ℝ)) ^ (4 : ℕ) = 1 / 10 := by
    rw [← Real.rpow_natCast ((10 : ℝ) ^ (-(1 / 4) : ℝ)) 4,
      ← Real.rpow_mul (by norm_num : (0 : ℝ) ≤ 10)]
    have h1 : (-(1 / 4) : ℝ) * ((4 : ℕ) : ℝ) = ((-1 : ℤ) : ℝ) := by norm_num
    rw [h1, Real.rpow_intCast]
    norm_num
  have ha : (0.5623 : ℝ) < (10 : ℝ) ^ (-(1 / 4) : ℝ) := by
    by_contra h
    push_neg at h
    have h4 := pow_le_pow_left₀ (le_of_lt hx0) h 4
    rw [hx4] at h4
    norm_num at h4
  have hb : (10 : ℝ) ^ (-(1 / 4) : ℝ) < 0.5624 := by
    by_contra h
    push_neg at h
    have h4 := pow_le_pow_left₀ (by norm_num : (0 : ℝ) ≤ 0.5624) h 4
    rw [hx4] at h4
    norm_num at h4
  have hexp : ((1500 : ℝ) - 1600) / 400 = (-(1 / 4) : ℝ) := by norm_num
  have hwp : win_probability 1600 1500 = 1 / (1 + (10 : ℝ) ^ (-(1 / 4) : ℝ)) := by
    unfold win_probability
    rw [hexp]
  have hden : (0 : ℝ) < 1 + (10 : ℝ) ^ (-(1 / 4) : ℝ) := by linarith
  refine ⟨?_, ?_, ?_, rfl, ?_, ?_⟩
  · simp [get_player_weights]
  · simp [get_player_weights]
  · simp [overall_win_probability]
  · rw [hwp, lt_div_iff₀ hden]
    linarith
  · rw [hwp, div_lt_iff₀ hden]
    linarith

end FaceoffElo
